import Mathlib

/-!
# FloopyBirb simulation core: shallow embedding and verification

Shallow embedding of the fixed-step simulation core of `src/main.rs`
(a Bevy "flappy bird" game).  Conventions of the embedding:

* `f32` quantities are modelled as exact rationals (`ℚ`); all the
  constants of the source (`GRAVITY = -980.0`, `dt = 1/60`, ...) are
  exactly representable.
* The random number generator (`rand::thread_rng` + `gen_range`) is
  modelled as an explicit stream of draw values: `gen_range lo hi r`
  returns a value inside `[lo, hi]` determined by the draw `r`
  (and fails, like the library panics, when the range is empty).
* Bevy's ECS is flattened into a single state record `Sim`.  Each
  `FixedUpdate` system of the source becomes a function `Sim → Sim`,
  and one fixed tick is their composition in the scheduled order
  `handle_flap_input; apply_bird_physics; move_pipes; spawn_pipes;
  check_collisions_and_scoring` (`animate_bird` only advances the
  sprite frame and is not part of the core state).  Commands
  (spawns/despawns) are applied between chained systems, as Bevy's
  automatic sync points do.
* `NextState::set(GameOver)` is modelled as the mode of the post-tick
  state; fixed ticks run only while the mode is `Playing`, so a tick
  index counts executed simulation ticks.
* The bird's x coordinate is written only by `start_game`
  (to `BIRD_START_X`) and never changed by the simulation, so it is a
  constant of the embedding rather than a state component.
-/

namespace FloopyBirb

/-- `WINDOW_W` of the source. -/
def WINDOW_W : ℚ := 800

/-- `WINDOW_H` of the source. -/
def WINDOW_H : ℚ := 512

/-- x-extent of `BIRD_SIZE`. -/
def BIRD_SIZE_X : ℚ := 34

/-- y-extent of `BIRD_SIZE`. -/
def BIRD_SIZE_Y : ℚ := 24

/-- `BIRD_START_X` of the source. -/
def BIRD_START_X : ℚ := -150

/-- `BIRD_START_Y` of the source. -/
def BIRD_START_Y : ℚ := 0

/-- `GRAVITY` of the source (px / s^2). -/
def GRAVITY : ℚ := -980

/-- `FLAP_VELOCITY` of the source (px / s). -/
def FLAP_VELOCITY : ℚ := 340

/-- `MAX_FALL_SPEED` of the source (px / s, negative). -/
def MAX_FALL_SPEED : ℚ := -500

/-- `PIPE_WIDTH` of the source. -/
def PIPE_WIDTH : ℚ := 80

/-- `PIPE_SPEED` of the source (px / s, negative: pipes move left). -/
def PIPE_SPEED : ℚ := -150

/-- `PIPE_GAP` of the source. -/
def PIPE_GAP : ℚ := 150

/-- `PIPE_SPAWN_INTERVAL` of the source (seconds), `1.6 = 8/5`. -/
def PIPE_SPAWN_INTERVAL : ℚ := 8/5

/-- `PIPE_SPAWN_X = WINDOW_W * 0.5 + 60.0`. -/
def PIPE_SPAWN_X : ℚ := WINDOW_W * (1/2) + 60

/-- `PIPE_DESPAWN_X = -WINDOW_W * 0.5 - 100.0`. -/
def PIPE_DESPAWN_X : ℚ := -(WINDOW_W * (1/2)) - 100

/-- `GAP_MARGIN` of the source. -/
def GAP_MARGIN : ℚ := 32

/-- The fixed timestep: the app runs `Time::<Fixed>::from_hz(60.0)`. -/
def dt : ℚ := 1/60

/-- The `GameState` states enum of the source. -/
inductive GameState : Type
  | Menu : GameState
  | Playing : GameState
  | GameOver : GameState
deriving DecidableEq, Repr

/-- The core fields of the `Bird` component together with the y part of
its `Transform` (`vy` is the source's `Bird::vy`; the animation timer is
presentation-only and omitted). -/
structure Bird where
  y : ℚ
  vy : ℚ
deriving DecidableEq, Repr

/-- One pipe entity: its `Transform` x/y, its `Sprite::custom_size`,
and the `Pipe` component (`is_top`, `scored`). -/
structure Pipe where
  x : ℚ
  cy : ℚ
  width : ℚ
  height : ℚ
  is_top : Bool
  scored : Bool
deriving DecidableEq, Repr

/-- The whole simulation state: `GameState`, the bird, the live pipe
entities (in spawn order), the `Score` resource, the `FlapInput`
resource and the elapsed time of the `PipeSpawnTimer`. -/
structure Sim where
  mode : GameState
  bird : Bird
  pipes : List Pipe
  score : ℕ
  flap_requested : Bool
  spawn_elapsed : ℚ
deriving DecidableEq, Repr

/-- `buffer_flap_input`: on a (just pressed) space key, set
`FlapInput::requested` to `true`. -/
def buffer_flap_input (s : Sim) : Sim :=
  { s with flap_requested := true }

/-- `handle_flap_input`: if a flap is buffered, overwrite the bird's
vertical velocity with `FLAP_VELOCITY` and clear the buffer. -/
def handle_flap_input (s : Sim) : Sim :=
  if s.flap_requested then
    { s with bird := { s.bird with vy := FLAP_VELOCITY }, flap_requested := false }
  else s

/-- `apply_bird_physics`: gravity, terminal-fall clamp, position
integration, exactly in the source's order. -/
def apply_bird_physics (s : Sim) : Sim :=
  let vy0 := s.bird.vy + GRAVITY * dt
  let vy1 := if vy0 < MAX_FALL_SPEED then MAX_FALL_SPEED else vy0
  { s with bird := { y := s.bird.y + vy1 * dt, vy := vy1 } }

/-- `move_pipes`: advance every pipe left by `PIPE_SPEED * dt` and
despawn those whose x fell below `PIPE_DESPAWN_X`. -/
def move_pipes (s : Sim) : Sim :=
  let moved := s.pipes.map (fun p => { p with x := p.x + PIPE_SPEED * dt })
  let kept := moved.filter (fun p => if p.x < PIPE_DESPAWN_X then false else true)
  { s with pipes := kept }

/-- Model of `rand::Rng::gen_range(lo..=hi)`: the RNG is abstracted as
the draw value `r`, mapped into the (inclusive) range; an empty range
panics in the library, modelled as `none`. -/
def gen_range (lo hi r : ℚ) : Option ℚ :=
  if lo ≤ hi then some (max lo (min hi r)) else none

/-- `min_center` of `spawn_pipes`. -/
def min_center : ℚ := -(WINDOW_H * (1/2)) + GAP_MARGIN + PIPE_GAP * (1/2)

/-- `max_center` of `spawn_pipes`. -/
def max_center : ℚ := WINDOW_H * (1/2) - GAP_MARGIN - PIPE_GAP * (1/2)

/-- The gap center drawn by `spawn_pipes` for the draw value `r`
(the concrete range `min_center ≤ max_center` is nonempty, so the
clamped draw is total here). -/
def gap_center_of (r : ℚ) : ℚ := max min_center (min max_center r)

/-- `top_height = half_h - (gap_center_y + PIPE_GAP * 0.5)`. -/
def top_height_of (c : ℚ) : ℚ := WINDOW_H * (1/2) - (c + PIPE_GAP * (1/2))

/-- `bottom_height = half_h + (gap_center_y - PIPE_GAP * 0.5)`. -/
def bottom_height_of (c : ℚ) : ℚ := WINDOW_H * (1/2) + (c - PIPE_GAP * (1/2))

/-- The pair of pipe entities spawned by `spawn_pipes` for the draw
value `r`: top pipe then bottom pipe, both at `PIPE_SPAWN_X`, with
`scored := false`. -/
def spawn_pair (r : ℚ) : List Pipe :=
  let c := gap_center_of r
  [ { x := PIPE_SPAWN_X, cy := WINDOW_H * (1/2) - top_height_of c * (1/2),
      width := PIPE_WIDTH, height := top_height_of c,
      is_top := true, scored := false },
    { x := PIPE_SPAWN_X, cy := -(WINDOW_H * (1/2)) + bottom_height_of c * (1/2),
      width := PIPE_WIDTH, height := bottom_height_of c,
      is_top := false, scored := false } ]

/-- `spawn_pipes`: tick the repeating spawn timer by `dt`; when it
finishes, spawn a pair at a random gap center.  A repeating Bevy timer
keeps the overshoot, and since `dt < PIPE_SPAWN_INTERVAL` a single
subtraction is the exact remainder. -/
def spawn_pipes (s : Sim) (r : ℚ) : Sim :=
  if PIPE_SPAWN_INTERVAL ≤ s.spawn_elapsed + dt then
    { s with spawn_elapsed := s.spawn_elapsed + dt - PIPE_SPAWN_INTERVAL,
             pipes := s.pipes ++ spawn_pair r }
  else
    { s with spawn_elapsed := s.spawn_elapsed + dt }

/-- The bird's left edge (`bird_pos.x - bird_half.x`); the bird's x is
the constant `BIRD_START_X`. -/
def bird_left : ℚ := BIRD_START_X - BIRD_SIZE_X * (1/2)

/-- `f32::abs`, written so that it evaluates by cases on the sign. -/
def rabs (q : ℚ) : ℚ := if q < 0 then -q else q

/-- The AABB overlap test of `check_collisions_and_scoring` for one
pipe (both axes, inclusive `<=` as in the source). -/
def overlapb (b : Bird) (p : Pipe) : Bool :=
  decide (rabs (BIRD_START_X - p.x) ≤ BIRD_SIZE_X * (1/2) + p.width * (1/2)) &&
  decide (rabs (b.y - p.cy) ≤ BIRD_SIZE_Y * (1/2) + p.height * (1/2))

/-- The scoring condition for one pipe: a bottom pipe, not yet scored,
whose right edge is strictly left of the bird's left edge. -/
def crosses (p : Pipe) : Bool :=
  !p.is_top && !p.scored && decide (p.x + p.width * (1/2) < bird_left)

/-- The `for` loop body of `check_collisions_and_scoring` over the pipe
query: on an AABB overlap, return immediately reporting game over
(pipes after the colliding one are not visited, so their scored flags
are untouched); otherwise run the scoring update for this pipe and
continue.  Returns (updated pipes, updated score, game-over flag). -/
def check_pipes (b : Bird) : List Pipe → ℕ → List Pipe × ℕ × Bool
  | [], sc => ([], sc, false)
  | p :: rest, sc =>
      if overlapb b p then (p :: rest, sc, true)
      else
        let p1 := if crosses p then { p with scored := true } else p
        let sc1 := if crosses p then sc + 1 else sc
        let out := check_pipes b rest sc1
        (p1 :: out.1, out.2.1, out.2.2)

/-- The floor/ceiling test of `check_collisions_and_scoring`
(inclusive comparisons, as in the source). -/
def boundary_breach (b : Bird) : Bool :=
  decide (b.y - BIRD_SIZE_Y * (1/2) ≤ -(WINDOW_H * (1/2))) ||
  decide (WINDOW_H * (1/2) ≤ b.y + BIRD_SIZE_Y * (1/2))

/-- `check_collisions_and_scoring`: boundary check first (early return
before any pipe is visited), then the pipe loop; a detected collision
sets the next state to `GameOver`. -/
def check_collisions_and_scoring (s : Sim) : Sim :=
  if boundary_breach s.bird then { s with mode := GameState.GameOver }
  else
    { s with pipes := (check_pipes s.bird s.pipes s.score).1,
             score := (check_pipes s.bird s.pipes s.score).2.1,
             mode := if (check_pipes s.bird s.pipes s.score).2.2 then
                       GameState.GameOver
                     else s.mode }

/-- The state in the middle of a fixed tick, after input consumption,
physics, pipe movement and spawning, right before
`check_collisions_and_scoring` runs. -/
def mid_state (s : Sim) (r : ℚ) : Sim :=
  spawn_pipes (move_pipes (apply_bird_physics (handle_flap_input s))) r

/-- One full fixed tick: the chained `FixedUpdate` systems. -/
def play_tick (s : Sim) (r : ℚ) : Sim :=
  check_collisions_and_scoring (mid_state s r)

/-- `start_game` (the `OnEnter(Playing)` system): reset score, clear
the buffered flap, reset the bird, despawn all pipes, and insert a
fresh repeating spawn timer.  The resulting mode is `Playing`. -/
def start_game (_s : Sim) : Sim :=
  { mode := GameState.Playing,
    bird := { y := BIRD_START_Y, vy := 0 },
    pipes := [],
    score := 0,
    flap_requested := false,
    spawn_elapsed := 0 }

/-- The per-step external input: whether the space key was (newly)
pressed for a flap while playing, and whether the start/restart key
was pressed (space in the menu, space or R on the game-over screen). -/
structure Input where
  flap : Bool
  start : Bool
deriving DecidableEq, Repr

/-- Flap buffering ahead of a tick: `buffer_flap_input` runs only when
the key was pressed. -/
def with_flap (s : Sim) (i : Input) : Sim :=
  if i.flap then buffer_flap_input s else s

/-- One step of the whole game: while `Playing`, input is buffered and
one fixed tick runs; in `Menu` and `GameOver` only the start/restart
intent is live (`menu_input` / `game_over_input` set the next state to
`Playing`, whose `OnEnter` runs `start_game`), and the world is frozen
otherwise. -/
def step (s : Sim) (i : Input) (r : ℚ) : Sim :=
  if s.mode = GameState.Playing then play_tick (with_flap s i) r
  else if i.start then start_game s else s

/-- The startup state (`setup`): menu mode, bird at the start position
with zero velocity, no pipes, zero score, no buffered flap. -/
def init_state : Sim :=
  { mode := GameState.Menu,
    bird := { y := BIRD_START_Y, vy := 0 },
    pipes := [],
    score := 0,
    flap_requested := false,
    spawn_elapsed := 0 }

/-- Run the game for `n` steps from `s`, with input stream `ins` and
RNG draw stream `rs`. -/
def run (s : Sim) (ins : ℕ → Input) (rs : ℕ → ℚ) : ℕ → Sim
  | 0 => s
  | n + 1 => step (run s ins rs n) (ins n) (rs n)

/-- Run `n` fixed ticks (with per-tick flap buffering) from `s`,
ungated by the mode: tick indices count executed simulation ticks. -/
def play_run (s : Sim) (flaps : ℕ → Bool) (rs : ℕ → ℚ) : ℕ → Sim
  | 0 => s
  | n + 1 =>
      play_tick
        (if flaps n then buffer_flap_input (play_run s flaps rs n)
         else play_run s flaps rs n) (rs n)

/-! ## Basic frame lemmas about the tick phases -/

lemma buffer_flap_input_bird (s : Sim) : (buffer_flap_input s).bird = s.bird := rfl

lemma rabs_eq_abs (q : ℚ) : rabs q = |q| := by
  unfold rabs
  split
  · exact (abs_of_neg (by assumption)).symm
  · exact (abs_of_nonneg (le_of_not_lt (by assumption))).symm

lemma apply_bird_physics_flap (s : Sim) :
    (apply_bird_physics s).flap_requested = s.flap_requested := rfl

lemma apply_bird_physics_pipes (s : Sim) : (apply_bird_physics s).pipes = s.pipes := rfl

lemma apply_bird_physics_score (s : Sim) : (apply_bird_physics s).score = s.score := rfl

lemma apply_bird_physics_mode (s : Sim) : (apply_bird_physics s).mode = s.mode := rfl

lemma apply_bird_physics_elapsed (s : Sim) :
    (apply_bird_physics s).spawn_elapsed = s.spawn_elapsed := rfl

lemma handle_flap_input_pipes (s : Sim) : (handle_flap_input s).pipes = s.pipes := by
  unfold handle_flap_input; split <;> rfl

lemma handle_flap_input_score (s : Sim) : (handle_flap_input s).score = s.score := by
  unfold handle_flap_input; split <;> rfl

lemma handle_flap_input_mode (s : Sim) : (handle_flap_input s).mode = s.mode := by
  unfold handle_flap_input; split <;> rfl

lemma handle_flap_input_elapsed (s : Sim) :
    (handle_flap_input s).spawn_elapsed = s.spawn_elapsed := by
  unfold handle_flap_input; split <;> rfl

lemma move_pipes_bird (s : Sim) : (move_pipes s).bird = s.bird := rfl

lemma move_pipes_flap (s : Sim) : (move_pipes s).flap_requested = s.flap_requested := rfl

lemma move_pipes_score (s : Sim) : (move_pipes s).score = s.score := rfl

lemma move_pipes_mode (s : Sim) : (move_pipes s).mode = s.mode := rfl

lemma move_pipes_elapsed (s : Sim) : (move_pipes s).spawn_elapsed = s.spawn_elapsed := rfl

lemma spawn_pipes_bird (s : Sim) (r : ℚ) : (spawn_pipes s r).bird = s.bird := by
  unfold spawn_pipes
  by_cases h : PIPE_SPAWN_INTERVAL ≤ s.spawn_elapsed + dt <;> simp [h]

lemma spawn_pipes_flap (s : Sim) (r : ℚ) :
    (spawn_pipes s r).flap_requested = s.flap_requested := by
  unfold spawn_pipes
  by_cases h : PIPE_SPAWN_INTERVAL ≤ s.spawn_elapsed + dt <;> simp [h]

lemma spawn_pipes_score (s : Sim) (r : ℚ) : (spawn_pipes s r).score = s.score := by
  unfold spawn_pipes
  by_cases h : PIPE_SPAWN_INTERVAL ≤ s.spawn_elapsed + dt <;> simp [h]

lemma spawn_pipes_mode (s : Sim) (r : ℚ) : (spawn_pipes s r).mode = s.mode := by
  unfold spawn_pipes
  by_cases h : PIPE_SPAWN_INTERVAL ≤ s.spawn_elapsed + dt <;> simp [h]

lemma check_cs_bird (s : Sim) : (check_collisions_and_scoring s).bird = s.bird := by
  unfold check_collisions_and_scoring; split <;> rfl

lemma check_cs_flap (s : Sim) :
    (check_collisions_and_scoring s).flap_requested = s.flap_requested := by
  unfold check_collisions_and_scoring; split <;> rfl

lemma check_cs_elapsed (s : Sim) :
    (check_collisions_and_scoring s).spawn_elapsed = s.spawn_elapsed := by
  unfold check_collisions_and_scoring; split <;> rfl

lemma mid_state_bird (s : Sim) (r : ℚ) :
    (mid_state s r).bird = (apply_bird_physics (handle_flap_input s)).bird := by
  unfold mid_state
  rw [spawn_pipes_bird, move_pipes_bird]

lemma mid_state_score (s : Sim) (r : ℚ) : (mid_state s r).score = s.score := by
  unfold mid_state
  rw [spawn_pipes_score, move_pipes_score, apply_bird_physics_score,
    handle_flap_input_score]

lemma mid_state_mode (s : Sim) (r : ℚ) : (mid_state s r).mode = s.mode := by
  unfold mid_state
  rw [spawn_pipes_mode, move_pipes_mode, apply_bird_physics_mode, handle_flap_input_mode]

/-! ## Lemmas about the collision/scoring pass -/

/-- If some pipe of the list overlaps the bird, the pass reports a
collision (whatever the position of the pipe in the list). -/
lemma check_pipes_over (b : Bird) (ps : List Pipe) (p : Pipe)
    (hp : p ∈ ps) (ho : overlapb b p = true) :
    ∀ sc : ℕ, (check_pipes b ps sc).2.2 = true := by
  induction ps with
  | nil => cases hp
  | cons q rest ih =>
      intro sc
      rcases List.mem_cons.mp hp with h | h
      · subst h
        simp [check_pipes, ho]
      · unfold check_pipes
        cases hov : overlapb b q with
        | true => simp
        | false =>
            simp only [Bool.false_eq_true, if_false]
            exact ih h _

/-- With no overlapping pipe, the pass scores exactly the crossing
pipes: it marks each of them `scored`, adds one point per crossing
pipe, and reports no collision. -/
lemma check_pipes_no_overlap (b : Bird) (ps : List Pipe)
    (h : ∀ p ∈ ps, overlapb b p = false) :
    ∀ sc : ℕ, check_pipes b ps sc =
      (ps.map (fun p => if crosses p then { p with scored := true } else p),
       sc + ps.countP crosses, false) := by
  induction ps with
  | nil => intro sc; simp [check_pipes]
  | cons q rest ih =>
      intro sc
      have hq : overlapb b q = false := h q (List.mem_cons_self _ _)
      have ih2 := ih (fun p hp => h p (List.mem_cons_of_mem _ hp))
      unfold check_pipes
      rw [hq]
      simp only [Bool.false_eq_true, if_false]
      by_cases hc : crosses q
      · simp [hc, ih2, List.countP_cons]
        omega
      · simp [hc, ih2, List.countP_cons]

/-- The pass never changes the number of live pipes. -/
lemma check_pipes_length (b : Bird) (ps : List Pipe) :
    ∀ sc : ℕ, ((check_pipes b ps sc).1).length = ps.length := by
  induction ps with
  | nil => intro sc; rfl
  | cons q rest ih =>
      intro sc
      unfold check_pipes
      cases hov : overlapb b q with
      | true => simp
      | false =>
          simp only [Bool.false_eq_true, if_false, List.length_cons]
          rw [ih]

lemma check_cs_pipes_length (s : Sim) :
    ((check_collisions_and_scoring s).pipes).length = s.pipes.length := by
  unfold check_collisions_and_scoring
  split
  · rfl
  · simp only
    rw [check_pipes_length]

/-! ## Claim theorems: spawn geometry, physics, input latch -/

/-- C5: for every random outcome of the gap center drawn from the spawn
range, the spawned pair satisfies
`top_height + PIPE_GAP + bottom_height = WINDOW_H`, and both segment
heights are at least `GAP_MARGIN` (hence non-negative). -/
theorem spawn_pair_geometry (r : ℚ) :
    ∃ t b : Pipe, spawn_pair r = [t, b] ∧ t.is_top = true ∧ b.is_top = false ∧
      t.height + PIPE_GAP + b.height = WINDOW_H ∧
      GAP_MARGIN ≤ t.height ∧ GAP_MARGIN ≤ b.height := by
  have h1 : min_center ≤ gap_center_of r := le_max_left _ _
  have h2 : gap_center_of r ≤ max_center := by
    apply max_le
    · norm_num [min_center, max_center, WINDOW_H, GAP_MARGIN, PIPE_GAP]
    · exact min_le_left _ _
  have hmin : (-149 : ℚ) ≤ gap_center_of r := by
    have : min_center = (-149 : ℚ) := by
      norm_num [min_center, WINDOW_H, GAP_MARGIN, PIPE_GAP]
    linarith [h1, this.ge.trans h1]
  have hmax : gap_center_of r ≤ (149 : ℚ) := by
    have : max_center = (149 : ℚ) := by
      norm_num [max_center, WINDOW_H, GAP_MARGIN, PIPE_GAP]
    linarith
  refine ⟨_, _, rfl, rfl, rfl, ?_, ?_, ?_⟩
  · show top_height_of (gap_center_of r) + PIPE_GAP + bottom_height_of (gap_center_of r)
        = WINDOW_H
    simp only [top_height_of, bottom_height_of]
    ring
  · show GAP_MARGIN ≤ top_height_of (gap_center_of r)
    simp only [top_height_of, WINDOW_H, GAP_MARGIN, PIPE_GAP]
    norm_num
    linarith
  · show GAP_MARGIN ≤ bottom_height_of (gap_center_of r)
    simp only [bottom_height_of, WINDOW_H, GAP_MARGIN, PIPE_GAP]
    norm_num
    linarith

/-- C6: on a tick with a pending flap intent, `handle_flap_input`
overwrites the velocity with `FLAP_VELOCITY` (not adding to the old
one) and clears the intent; after gravity and the clamp, the post-tick
velocity is `max (FLAP_VELOCITY + GRAVITY * dt) MAX_FALL_SPEED`
whatever the pre-tick velocity was, and the position moves by that
velocity times `dt`. -/
theorem flap_overwrites_velocity (s : Sim) (h : s.flap_requested = true) :
    (handle_flap_input s).flap_requested = false ∧
    (apply_bird_physics (handle_flap_input s)).bird.vy
      = max (FLAP_VELOCITY + GRAVITY * dt) MAX_FALL_SPEED ∧
    (apply_bird_physics (handle_flap_input s)).bird.y
      = s.bird.y + max (FLAP_VELOCITY + GRAVITY * dt) MAX_FALL_SPEED * dt := by
  have hh : handle_flap_input s
      = { s with bird := { s.bird with vy := FLAP_VELOCITY }, flap_requested := false } := by
    unfold handle_flap_input
    rw [if_pos h]
  refine ⟨by rw [hh], ?_, ?_⟩
  · rw [hh]
    unfold apply_bird_physics
    norm_num [FLAP_VELOCITY, GRAVITY, dt, MAX_FALL_SPEED, max_def]
  · rw [hh]
    unfold apply_bird_physics
    norm_num [FLAP_VELOCITY, GRAVITY, dt, MAX_FALL_SPEED, max_def]

/-- A concrete playing state with a pending flap and a nonzero
downward velocity, used as witness input. -/
def flap_sample : Sim :=
  { mode := GameState.Playing, bird := { y := 10, vy := -250 }, pipes := [],
    score := 3, flap_requested := true, spawn_elapsed := 0 }

/-- Witness for C6 at a concrete state with a pending flap and a
nonzero pre-tick velocity. -/
theorem flap_overwrites_velocity_witness :
    flap_sample.flap_requested = true ∧
    ((handle_flap_input flap_sample).flap_requested = false ∧
     (apply_bird_physics (handle_flap_input flap_sample)).bird.vy
        = max (FLAP_VELOCITY + GRAVITY * dt) MAX_FALL_SPEED ∧
     (apply_bird_physics (handle_flap_input flap_sample)).bird.y
        = flap_sample.bird.y
          + max (FLAP_VELOCITY + GRAVITY * dt) MAX_FALL_SPEED * dt) :=
  ⟨rfl, flap_overwrites_velocity flap_sample rfl⟩

/-- C8: recording a flap request is idempotent — a second
`buffer_flap_input` between two ticks changes nothing, so the tick
outcome is the same as for a single request; the consuming tick clears
the latch. -/
theorem flap_request_idempotent (s : Sim) (r : ℚ) :
    buffer_flap_input (buffer_flap_input s) = buffer_flap_input s ∧
    play_tick (buffer_flap_input (buffer_flap_input s)) r
      = play_tick (buffer_flap_input s) r ∧
    (handle_flap_input (buffer_flap_input s)).flap_requested = false ∧
    (play_tick (buffer_flap_input s) r).flap_requested = false := by
  refine ⟨rfl, rfl, rfl, ?_⟩
  unfold play_tick mid_state
  rw [check_cs_flap, spawn_pipes_flap, move_pipes_flap, apply_bird_physics_flap]
  rfl

/-- C9: after the physics step the vertical velocity is never below
`MAX_FALL_SPEED` (for any pre-step state, hence after every tick), and
the clamp bounds downward speed only: when gravity leaves the velocity
at or above `MAX_FALL_SPEED`, it is not altered. -/
theorem fall_speed_clamp (s : Sim) (r : ℚ) :
    MAX_FALL_SPEED ≤ (apply_bird_physics s).bird.vy ∧
    MAX_FALL_SPEED ≤ (play_tick s r).bird.vy ∧
    (MAX_FALL_SPEED ≤ s.bird.vy + GRAVITY * dt →
      (apply_bird_physics s).bird.vy = s.bird.vy + GRAVITY * dt) := by
  have key : ∀ u : Sim, MAX_FALL_SPEED ≤ (apply_bird_physics u).bird.vy := by
    intro u
    show MAX_FALL_SPEED ≤
      (if u.bird.vy + GRAVITY * dt < MAX_FALL_SPEED then MAX_FALL_SPEED
       else u.bird.vy + GRAVITY * dt)
    split
    · exact le_refl _
    · exact le_of_not_lt (by assumption)
  refine ⟨key s, ?_, ?_⟩
  · have : (play_tick s r).bird = (apply_bird_physics (handle_flap_input s)).bird := by
      unfold play_tick
      rw [check_cs_bird, mid_state_bird]
    rw [this]
    exact key _
  · intro h
    show (if s.bird.vy + GRAVITY * dt < MAX_FALL_SPEED then MAX_FALL_SPEED
          else s.bird.vy + GRAVITY * dt) = s.bird.vy + GRAVITY * dt
    rw [if_neg (not_lt.mpr h)]

/-- A concrete playing state with a resting bird, used as witness
input. -/
def rest_sample : Sim :=
  { mode := GameState.Playing, bird := { y := 0, vy := 0 }, pipes := [],
    score := 0, flap_requested := false, spawn_elapsed := 0 }

/-- Witness for C9 at a concrete state whose post-gravity velocity is
above the clamp. -/
theorem fall_speed_clamp_witness :
    (MAX_FALL_SPEED ≤ rest_sample.bird.vy + GRAVITY * dt) ∧
    (apply_bird_physics rest_sample).bird.vy
      = rest_sample.bird.vy + GRAVITY * dt :=
  ⟨by with_unfolding_all decide,
   (fall_speed_clamp rest_sample 0).2.2 (by with_unfolding_all decide)⟩

/-- C10: the collision tests are inclusive at the boundary.  An exact
touch — the center distance on an axis equal to the sum of half
extents, the other axis overlapping — counts as a collision, and a bird
whose bottom edge is exactly at `-WINDOW_H/2` (or top edge exactly at
`+WINDOW_H/2`) triggers game over. -/
theorem inclusive_collision_boundary (s : Sim) (p : Pipe)
    (h : s.bird.y - BIRD_SIZE_Y * (1/2) = -(WINDOW_H * (1/2)) ∨
         s.bird.y + BIRD_SIZE_Y * (1/2) = WINDOW_H * (1/2) ∨
         (p ∈ s.pipes ∧
           rabs (BIRD_START_X - p.x) = BIRD_SIZE_X * (1/2) + p.width * (1/2) ∧
           rabs (s.bird.y - p.cy) ≤ BIRD_SIZE_Y * (1/2) + p.height * (1/2)) ∨
         (p ∈ s.pipes ∧
           rabs (BIRD_START_X - p.x) ≤ BIRD_SIZE_X * (1/2) + p.width * (1/2) ∧
           rabs (s.bird.y - p.cy) = BIRD_SIZE_Y * (1/2) + p.height * (1/2))) :
    (check_collisions_and_scoring s).mode = GameState.GameOver := by
  have hover : ∀ hx : rabs (BIRD_START_X - p.x) ≤ BIRD_SIZE_X * (1/2) + p.width * (1/2),
      ∀ hy : rabs (s.bird.y - p.cy) ≤ BIRD_SIZE_Y * (1/2) + p.height * (1/2),
      overlapb s.bird p = true := by
    intro hx hy
    unfold overlapb
    rw [Bool.and_eq_true, decide_eq_true_eq, decide_eq_true_eq]
    exact ⟨hx, hy⟩
  have hpipe : ∀ hm : p ∈ s.pipes, overlapb s.bird p = true →
      (check_collisions_and_scoring s).mode = GameState.GameOver := by
    intro hm ho
    unfold check_collisions_and_scoring
    by_cases hb : boundary_breach s.bird = true
    · rw [if_pos hb]
    · rw [if_neg hb]
      simp only
      rw [check_pipes_over s.bird s.pipes p hm ho]
      rfl
  rcases h with h | h | ⟨hm, hx, hy⟩ | ⟨hm, hx, hy⟩
  · have hb : boundary_breach s.bird = true := by
      unfold boundary_breach
      rw [Bool.or_eq_true, decide_eq_true_eq, decide_eq_true_eq]
      exact Or.inl h.le
    unfold check_collisions_and_scoring
    rw [if_pos hb]
  · have hb : boundary_breach s.bird = true := by
      unfold boundary_breach
      rw [Bool.or_eq_true, decide_eq_true_eq, decide_eq_true_eq]
      exact Or.inr h.ge
    unfold check_collisions_and_scoring
    rw [if_pos hb]
  · exact hpipe hm (hover hx.le hy)
  · exact hpipe hm (hover hx hy.le)

/-- A pipe exactly touching the sample bird from above on the y axis. -/
def touch_pipe : Pipe :=
  { x := -150, cy := 62, width := 80, height := 100, is_top := false,
    scored := false }

/-- A concrete playing state whose bird exactly touches `touch_pipe`. -/
def touch_sample : Sim :=
  { mode := GameState.Playing, bird := { y := 0, vy := 0 },
    pipes := [touch_pipe], score := 0, flap_requested := false,
    spawn_elapsed := 0 }

/-- Witness for C10: an exact vertical touch between the bird and a
pipe triggers game over. -/
theorem inclusive_collision_boundary_witness :
    (touch_pipe ∈ touch_sample.pipes ∧
     rabs (BIRD_START_X - touch_pipe.x)
        ≤ BIRD_SIZE_X * (1/2) + touch_pipe.width * (1/2) ∧
     rabs (touch_sample.bird.y - touch_pipe.cy)
        = BIRD_SIZE_Y * (1/2) + touch_pipe.height * (1/2)) ∧
    (check_collisions_and_scoring touch_sample).mode = GameState.GameOver :=
  ⟨⟨by decide, by with_unfolding_all decide, by with_unfolding_all decide⟩,
   inclusive_collision_boundary touch_sample touch_pipe
     (Or.inr (Or.inr (Or.inr ⟨by decide, by with_unfolding_all decide,
       by with_unfolding_all decide⟩)))⟩

/-- C4: scoring awards exactly one point per passed pair.  On a tick
with no boundary breach and no overlapping pipe, the collision/scoring
pass adds one point for each live bottom pipe whose `scored` flag is
clear and whose right edge just passed the bird's left edge, sets the
flag on exactly those pipes, and leaves the mode alone; a pipe whose
flag is already set can never satisfy the crossing condition again, so
it is counted once, on the first crossing tick, and never after. -/
theorem scoring_exactly_once (s : Sim)
    (hb : boundary_breach s.bird = false)
    (ho : ∀ p ∈ s.pipes, overlapb s.bird p = false) :
    (check_collisions_and_scoring s).score = s.score + s.pipes.countP crosses ∧
    (check_collisions_and_scoring s).pipes
      = s.pipes.map (fun p => if crosses p then { p with scored := true } else p) ∧
    (check_collisions_and_scoring s).mode = s.mode ∧
    ∀ p : Pipe, p.scored = true → crosses p = false := by
  have hch := check_pipes_no_overlap s.bird s.pipes ho s.score
  have hbf : ¬ boundary_breach s.bird = true := by
    rw [hb]
    exact Bool.false_ne_true
  unfold check_collisions_and_scoring
  rw [if_neg hbf]
  refine ⟨?_, ?_, ?_, ?_⟩
  · show (check_pipes s.bird s.pipes s.score).2.1 = _
    rw [hch]
  · show (check_pipes s.bird s.pipes s.score).1 = _
    rw [hch]
  · show (if (check_pipes s.bird s.pipes s.score).2.2 = true then GameState.GameOver
          else s.mode) = s.mode
    rw [hch]
    rfl
  · intro p hp
    simp [crosses, hp]

/-- An unscored bottom pipe whose right edge just passed the bird. -/
def passed_pipe : Pipe :=
  { x := -208, cy := -206, width := 80, height := 100, is_top := false,
    scored := false }

/-- A concrete playing state where `passed_pipe` crosses this tick. -/
def passed_sample : Sim :=
  { mode := GameState.Playing, bird := { y := 0, vy := 0 },
    pipes := [passed_pipe], score := 4, flap_requested := false,
    spawn_elapsed := 0 }

/-- Witness for C4: a single unscored bottom pipe that just passed the
bird scores exactly one point and its flag flips. -/
theorem scoring_exactly_once_witness :
    (boundary_breach passed_sample.bird = false ∧
     ∀ p ∈ passed_sample.pipes, overlapb passed_sample.bird p = false) ∧
    (check_collisions_and_scoring passed_sample).score
      = passed_sample.score + passed_sample.pipes.countP crosses ∧
    (check_collisions_and_scoring passed_sample).pipes
      = passed_sample.pipes.map
          (fun p => if crosses p then { p with scored := true } else p) :=
  ⟨⟨by with_unfolding_all decide, by with_unfolding_all decide⟩,
   (scoring_exactly_once passed_sample (by with_unfolding_all decide)
     (by with_unfolding_all decide)).1,
   (scoring_exactly_once passed_sample (by with_unfolding_all decide)
     (by with_unfolding_all decide)).2.1⟩

/-! ## Determinism and reset -/

/-- C2: the simulation is deterministic.  For pointwise-equal RNG draw
streams and pointwise-equal input streams (flap / start intents at
fixed step indices), two runs from the same state agree on the flyer
state and the score at every tick. -/
theorem run_deterministic (s : Sim) (i1 i2 : ℕ → Input) (r1 r2 : ℕ → ℚ)
    (hi : ∀ n, i1 n = i2 n) (hr : ∀ n, r1 n = r2 n) :
    ∀ n, (run s i1 r1 n).bird = (run s i2 r2 n).bird ∧
         (run s i1 r1 n).score = (run s i2 r2 n).score := by
  have key : ∀ n, run s i1 r1 n = run s i2 r2 n := by
    intro n
    induction n with
    | zero => rfl
    | succ k ih =>
        show step (run s i1 r1 k) (i1 k) (r1 k) = step (run s i2 r2 k) (i2 k) (r2 k)
        rw [ih, hi k, hr k]
  intro n
  rw [key n]
  exact ⟨rfl, rfl⟩

/-- A sample input stream for the determinism witness. -/
def det_ins : ℕ → Input := fun n => { flap := n % 2 == 0, start := n == 0 }

/-- A sample draw stream for the determinism witness. -/
def det_rs : ℕ → ℚ := fun n => (n : ℚ)

/-- The same draw stream written differently (pointwise equal). -/
def det_rs2 : ℕ → ℚ := fun n => (n : ℚ) + 0

/-- Witness for C2 on two concrete (pointwise equal) stream pairs. -/
theorem run_deterministic_witness :
    (∀ n, det_ins n = det_ins n) ∧ (∀ n, det_rs n = det_rs2 n) ∧
    ((run init_state det_ins det_rs 3).bird
        = (run init_state det_ins det_rs2 3).bird ∧
     (run init_state det_ins det_rs 3).score
        = (run init_state det_ins det_rs2 3).score) :=
  ⟨fun _ => rfl, fun _ => (add_zero _).symm,
   run_deterministic init_state det_ins det_ins det_rs det_rs2
     (fun _ => rfl) (fun _ => (add_zero _).symm) 3⟩

lemma buffer_flap_input_pipes (s : Sim) : (buffer_flap_input s).pipes = s.pipes := rfl

lemma buffer_flap_input_elapsed (s : Sim) :
    (buffer_flap_input s).spawn_elapsed = s.spawn_elapsed := rfl

/-- A tick that starts with no live pipes and a timer strictly short of
the interval ends with no live pipes and the timer advanced by `dt`. -/
lemma play_tick_no_spawn (u : Sim) (r : ℚ)
    (hp : u.pipes = []) (he : u.spawn_elapsed + dt < PIPE_SPAWN_INTERVAL) :
    (play_tick u r).pipes = [] ∧
    (play_tick u r).spawn_elapsed = u.spawn_elapsed + dt := by
  have hmove : (move_pipes (apply_bird_physics (handle_flap_input u))).pipes = [] := by
    unfold move_pipes
    rw [apply_bird_physics_pipes, handle_flap_input_pipes, hp]
    rfl
  have hel : (move_pipes (apply_bird_physics (handle_flap_input u))).spawn_elapsed
      = u.spawn_elapsed := by
    rw [move_pipes_elapsed, apply_bird_physics_elapsed, handle_flap_input_elapsed]
  have hnofire : ¬ PIPE_SPAWN_INTERVAL ≤
      (move_pipes (apply_bird_physics (handle_flap_input u))).spawn_elapsed + dt := by
    rw [hel]
    exact not_le.mpr he
  have hmid : (mid_state u r).pipes = [] ∧
      (mid_state u r).spawn_elapsed = u.spawn_elapsed + dt := by
    unfold mid_state spawn_pipes
    rw [if_neg hnofire]
    exact ⟨hmove, by rw [hel]⟩
  constructor
  · show (check_collisions_and_scoring (mid_state u r)).pipes = []
    unfold check_collisions_and_scoring
    split
    · exact hmid.1
    · simp only
      rw [hmid.1]
      rfl
  · show (check_collisions_and_scoring (mid_state u r)).spawn_elapsed = _
    rw [check_cs_elapsed]
    exact hmid.2

/-- A tick that starts with no live pipes and the timer one `dt` short
of the interval spawns exactly one pair and resets the timer. -/
lemma play_tick_first_spawn (u : Sim) (r : ℚ)
    (hp : u.pipes = []) (he : u.spawn_elapsed + dt = PIPE_SPAWN_INTERVAL) :
    (play_tick u r).pipes.length = 2 ∧
    (play_tick u r).spawn_elapsed = 0 := by
  have hmove : (move_pipes (apply_bird_physics (handle_flap_input u))).pipes = [] := by
    unfold move_pipes
    rw [apply_bird_physics_pipes, handle_flap_input_pipes, hp]
    rfl
  have hel : (move_pipes (apply_bird_physics (handle_flap_input u))).spawn_elapsed
      = u.spawn_elapsed := by
    rw [move_pipes_elapsed, apply_bird_physics_elapsed, handle_flap_input_elapsed]
  have hfire : PIPE_SPAWN_INTERVAL ≤
      (move_pipes (apply_bird_physics (handle_flap_input u))).spawn_elapsed + dt := by
    rw [hel, he]
  have hmid : (mid_state u r).pipes = spawn_pair r ∧
      (mid_state u r).spawn_elapsed = 0 := by
    unfold mid_state spawn_pipes
    rw [if_pos hfire]
    refine ⟨by rw [hmove]; rfl, ?_⟩
    simp only
    rw [hel, he]
    ring
  have hlen : (spawn_pair r).length = 2 := rfl
  constructor
  · show ((check_collisions_and_scoring (mid_state u r)).pipes).length = 2
    rw [check_cs_pipes_length, hmid.1, hlen]
  · show (check_collisions_and_scoring (mid_state u r)).spawn_elapsed = 0
    rw [check_cs_elapsed]
    exact hmid.2

lemma play_run_succ (s : Sim) (flaps : ℕ → Bool) (rs : ℕ → ℚ) (n : ℕ) :
    play_run s flaps rs (n + 1)
      = play_tick (if flaps n then buffer_flap_input (play_run s flaps rs n)
                   else play_run s flaps rs n) (rs n) := rfl

/-- Up to (and including) the 95th tick after `start_game`, no pipes
have spawned and the timer reads exactly `m / 60` seconds. -/
lemma play_run_pipes_empty (s : Sim) (flaps : ℕ → Bool) (rs : ℕ → ℚ) :
    ∀ m : ℕ, m ≤ 95 →
      (play_run (start_game s) flaps rs m).pipes = [] ∧
      (play_run (start_game s) flaps rs m).spawn_elapsed = (m : ℚ)/60 := by
  intro m
  induction m with
  | zero =>
      intro _
      exact ⟨rfl, by norm_num [play_run, start_game]⟩
  | succ k ih =>
      intro hk
      obtain ⟨hp, he⟩ := ih (Nat.le_of_succ_le_succ (Nat.le_succ_of_le hk))
      have hkq : (k : ℚ) + 1 ≤ 95 := by
        have : ((k : ℕ) + 1 : ℚ) ≤ (95 : ℚ) := by
          exact_mod_cast hk
        push_cast at this
        linarith
      set u := (if flaps k then buffer_flap_input (play_run (start_game s) flaps rs k)
                else play_run (start_game s) flaps rs k) with hu
      have hup : u.pipes = [] := by
        rw [hu]
        split
        · rw [buffer_flap_input_pipes]
          exact hp
        · exact hp
      have hue : u.spawn_elapsed = (k : ℚ)/60 := by
        rw [hu]
        split
        · rw [buffer_flap_input_elapsed]
          exact he
        · exact he
      have hlt : u.spawn_elapsed + dt < PIPE_SPAWN_INTERVAL := by
        rw [hue]
        unfold dt PIPE_SPAWN_INTERVAL
        linarith
      have hstep := play_tick_no_spawn u (rs k) hup hlt
      rw [play_run_succ, ← hu]
      refine ⟨hstep.1, ?_⟩
      rw [hstep.2, hue]
      push_cast
      unfold dt
      ring

/-- C7: on every entry to `Playing`, `start_game` resets the score to 0,
the flyer to the initial position and velocity, clears the live pipe
set and any pending flap intent, and restarts the spawn timer, so that
(counting executed simulation ticks) no pipe exists before the 96th
tick (= `PIPE_SPAWN_INTERVAL / dt`) and the first pair spawns exactly
on it. -/
theorem playing_entry_reset (s : Sim) (flaps : ℕ → Bool) (rs : ℕ → ℚ)
    (n : ℕ) (hn : n < 96) :
    (start_game s).mode = GameState.Playing ∧
    (start_game s).score = 0 ∧
    (start_game s).bird = { y := BIRD_START_Y, vy := 0 } ∧
    (start_game s).pipes = [] ∧
    (start_game s).flap_requested = false ∧
    (start_game s).spawn_elapsed = 0 ∧
    (play_run (start_game s) flaps rs n).pipes = [] ∧
    (play_run (start_game s) flaps rs 96).pipes.length = 2 := by
  refine ⟨rfl, rfl, rfl, rfl, rfl, rfl, ?_, ?_⟩
  · exact (play_run_pipes_empty s flaps rs n (Nat.lt_succ_iff.mp hn)).1
  · obtain ⟨hp, he⟩ := play_run_pipes_empty s flaps rs 95 (le_refl _)
    set u := (if flaps 95 then buffer_flap_input (play_run (start_game s) flaps rs 95)
              else play_run (start_game s) flaps rs 95) with hu
    rw [show (96 : ℕ) = 95 + 1 from rfl, play_run_succ, ← hu]
    have hup : u.pipes = [] := by
      rw [hu]
      split
      · rw [buffer_flap_input_pipes]
        exact hp
      · exact hp
    have hue : u.spawn_elapsed = (95 : ℚ)/60 := by
      rw [hu]
      split
      · rw [buffer_flap_input_elapsed]
        exact he
      · exact he
    have heq : u.spawn_elapsed + dt = PIPE_SPAWN_INTERVAL := by
      rw [hue]
      unfold dt PIPE_SPAWN_INTERVAL
      norm_num
    exact (play_tick_first_spawn u (rs 95) hup heq).1

/-- Witness for C7 with concrete input/draw streams at tick 50. -/
theorem playing_entry_reset_witness :
    (50 : ℕ) < 96 ∧
    ((start_game init_state).mode = GameState.Playing ∧
     (start_game init_state).score = 0 ∧
     (start_game init_state).bird = { y := BIRD_START_Y, vy := 0 } ∧
     (start_game init_state).pipes = [] ∧
     (start_game init_state).flap_requested = false ∧
     (start_game init_state).spawn_elapsed = 0 ∧
     (play_run (start_game init_state) (fun _ => false) (fun _ => 0) 50).pipes = [] ∧
     (play_run (start_game init_state) (fun _ => false) (fun _ => 0) 96).pipes.length
        = 2) :=
  ⟨by decide,
   playing_entry_reset init_state (fun _ => false) (fun _ => 0) 50 (by decide)⟩

/-! ## Configuration (C3)

The source exposes its tuning values as `const` items and performs no
validation anywhere: `main` builds the app directly and `spawn_pipes`
computes the draw range from the constants each time.  To state the
claim about invalid configurations we parametrize the spawn geometry
by a configuration record, with the source's constants as the default
instance. -/

/-- The pipe-geometry configuration constants of the source. -/
structure Config where
  window_h : ℚ
  pipe_gap : ℚ
  gap_margin : ℚ
deriving DecidableEq, Repr

/-- The hard-coded configuration of the source
(`WINDOW_H`, `PIPE_GAP`, `GAP_MARGIN`). -/
def default_config : Config :=
  { window_h := WINDOW_H, pipe_gap := PIPE_GAP, gap_margin := GAP_MARGIN }

/-- `min_center` of `spawn_pipes`, over an arbitrary configuration. -/
def cfg_min_center (c : Config) : ℚ :=
  -(c.window_h * (1/2)) + c.gap_margin + c.pipe_gap * (1/2)

/-- `max_center` of `spawn_pipes`, over an arbitrary configuration. -/
def cfg_max_center (c : Config) : ℚ :=
  c.window_h * (1/2) - c.gap_margin - c.pipe_gap * (1/2)

/-- A configuration whose spawn range is empty
(`gap size + 2 * margin > playfield height`). -/
def invalid_config (c : Config) : Prop :=
  c.window_h < c.pipe_gap + 2 * c.gap_margin

/-- Translated from the program's startup path (`main`): the source
performs no validation of the pipe-geometry constants — every
configuration is accepted unconditionally, no error value exists. -/
def validate_config (c : Config) : Except String Config := Except.ok c

/-- The random gap-center draw of `spawn_pipes` over an arbitrary
configuration: `gen_range` panics (`none`) on an empty range. -/
def cfg_gap_center (c : Config) (r : ℚ) : Option ℚ :=
  gen_range (cfg_min_center c) (cfg_max_center c) r

/-- A concrete invalid configuration: gap `512` and margin `32` on a
`512`-pixel playfield (`512 + 64 > 512`). -/
def bad_config : Config := { window_h := 512, pipe_gap := 512, gap_margin := 32 }

/-- Counterexample to C3: `bad_config` makes the spawn range empty,
yet configuration validation accepts it (`Except.ok`, no descriptive
error — the source has no validation step at all); the failure only
surfaces at spawn time, where the empty-range draw panics. -/
theorem config_validation_counterexample :
    invalid_config bad_config ∧
    validate_config bad_config = Except.ok bad_config ∧
    cfg_gap_center bad_config 0 = none := by
  refine ⟨?_, rfl, ?_⟩
  · show (512 : ℚ) < 512 + 2 * 32
    norm_num
  · show gen_range (cfg_min_center bad_config) (cfg_max_center bad_config) 0 = none
    have h1 : cfg_min_center bad_config = (32 : ℚ) := by
      norm_num [cfg_min_center, bad_config]
    have h2 : cfg_max_center bad_config = (-32 : ℚ) := by
      norm_num [cfg_max_center, bad_config]
    rw [h1, h2]
    unfold gen_range
    rw [if_neg (by norm_num)]

/-- C3 (amended): the source has no configuration-validation step —
`validate_config` accepts every configuration — but its hard-coded
constants are valid: `PIPE_GAP + 2 * GAP_MARGIN ≤ WINDOW_H`, the spawn
range is nonempty, and on the default configuration the gap-center
draw always succeeds with the pipeline's (total) clamped draw. -/
theorem config_constants_valid :
    PIPE_GAP + 2 * GAP_MARGIN ≤ WINDOW_H ∧
    min_center ≤ max_center ∧
    (∀ c : Config, validate_config c = Except.ok c) ∧
    (∀ r : ℚ, cfg_gap_center default_config r = some (gap_center_of r)) := by
  refine ⟨?_, ?_, fun _ => rfl, ?_⟩
  · show (150 : ℚ) + 2 * 32 ≤ 512
    norm_num
  · show min_center ≤ max_center
    norm_num [min_center, max_center, WINDOW_H, GAP_MARGIN, PIPE_GAP]
  · intro r
    show gen_range (cfg_min_center default_config) (cfg_max_center default_config) r
        = some (gap_center_of r)
    have h1 : cfg_min_center default_config = min_center := by
      norm_num [cfg_min_center, min_center, default_config, WINDOW_H, GAP_MARGIN,
        PIPE_GAP]
    have h2 : cfg_max_center default_config = max_center := by
      norm_num [cfg_max_center, max_center, default_config, WINDOW_H, GAP_MARGIN,
        PIPE_GAP]
    rw [h1, h2]
    unfold gen_range gap_center_of
    rw [if_pos]
    norm_num [min_center, max_center, WINDOW_H, GAP_MARGIN, PIPE_GAP]

/-! ## Reachable-state invariants (toward C1)

While `Playing`, every live pipe was spawned by `spawn_pipes` at
`PIPE_SPAWN_X` on a timer expiry and has moved left by `-PIPE_SPEED *
dt = 5/2` pixels per tick since; expiries are exactly 96 ticks apart,
so the x coordinates of two live pipes differ by a multiple of
`240 = -PIPE_SPEED * PIPE_SPAWN_INTERVAL` pixels.  Moreover a bottom
pipe strictly past the bird's left edge was scored on the tick it
crossed.  Together these rule out a score increment on a tick that
detects a collision. -/

/-- The spawn timer always reads a whole number of ticks, short of the
interval. -/
def grid_elapsed (e : ℚ) : Prop := ∃ m : ℕ, m < 96 ∧ e = (m : ℚ)/60

/-- Every live pipe sits a whole number of spawn periods, plus the
current timer offset, left of the spawn abscissa. -/
def aligned_pipes (ps : List Pipe) (e : ℚ) : Prop :=
  ∀ p ∈ ps, ∃ k : ℕ, p.x = PIPE_SPAWN_X - 240 * (k : ℚ) - 150 * e

/-- Between ticks, an unscored bottom pipe has not yet strictly passed
the bird's left edge. -/
def fresh_pipes (ps : List Pipe) : Prop :=
  ∀ p ∈ ps, p.is_top = false → p.scored = false →
    bird_left ≤ p.x + p.width * (1/2)

/-- In the middle of a tick (after movement), an unscored bottom pipe
is at most one tick's travel past the bird's left edge. -/
def midfresh_pipes (ps : List Pipe) : Prop :=
  ∀ p ∈ ps, p.is_top = false → p.scored = false →
    bird_left - 150 * dt ≤ p.x + p.width * (1/2)

/-- Every live pipe is `PIPE_WIDTH` wide. -/
def wide_pipes (ps : List Pipe) : Prop := ∀ p ∈ ps, p.width = PIPE_WIDTH

/-- The inductive invariant of reachable states, while `Playing`. -/
def SimInv (s : Sim) : Prop :=
  s.mode = GameState.Playing →
    grid_elapsed s.spawn_elapsed ∧ aligned_pipes s.pipes s.spawn_elapsed ∧
    fresh_pipes s.pipes ∧ wide_pipes s.pipes

lemma with_flap_pipes (s : Sim) (i : Input) : (with_flap s i).pipes = s.pipes := by
  unfold with_flap; split <;> rfl

lemma with_flap_elapsed (s : Sim) (i : Input) :
    (with_flap s i).spawn_elapsed = s.spawn_elapsed := by
  unfold with_flap; split <;> rfl

lemma with_flap_score (s : Sim) (i : Input) : (with_flap s i).score = s.score := by
  unfold with_flap; split <;> rfl

lemma spawn_pair_fields (r : ℚ) :
    ∀ p ∈ spawn_pair r, p.x = PIPE_SPAWN_X ∧ p.width = PIPE_WIDTH ∧
      p.scored = false := by
  intro p hp
  unfold spawn_pair at hp
  rcases List.mem_cons.mp hp with h | hp2
  · rw [h]; exact ⟨rfl, rfl, rfl⟩
  · rcases List.mem_cons.mp hp2 with h | hp3
    · rw [h]; exact ⟨rfl, rfl, rfl⟩
    · cases hp3

lemma move_pipes_mem (s : Sim) (p' : Pipe) (h : p' ∈ (move_pipes s).pipes) :
    ∃ p ∈ s.pipes, p' = { p with x := p.x + PIPE_SPEED * dt } := by
  simp only [move_pipes, List.mem_filter, List.mem_map] at h
  obtain ⟨⟨p, hp, hpe⟩, _⟩ := h
  exact ⟨p, hp, hpe.symm⟩

/-- The movement/spawn phases preserve the invariants (turning `fresh`
into its mid-tick form). -/
lemma mid_invariants (u : Sim) (r : ℚ)
    (hg : grid_elapsed u.spawn_elapsed)
    (ha : aligned_pipes u.pipes u.spawn_elapsed)
    (hf : fresh_pipes u.pipes) (hw : wide_pipes u.pipes) :
    grid_elapsed (mid_state u r).spawn_elapsed ∧
    aligned_pipes (mid_state u r).pipes (mid_state u r).spawn_elapsed ∧
    midfresh_pipes (mid_state u r).pipes ∧
    wide_pipes (mid_state u r).pipes := by
  obtain ⟨m, hm, he⟩ := hg
  set t := apply_bird_physics (handle_flap_input u) with ht
  have htp : t.pipes = u.pipes := by
    rw [ht, apply_bird_physics_pipes, handle_flap_input_pipes]
  have hte : t.spawn_elapsed = u.spawn_elapsed := by
    rw [ht, apply_bird_physics_elapsed, handle_flap_input_elapsed]
  have me : (move_pipes t).spawn_elapsed = u.spawn_elapsed := by
    rw [move_pipes_elapsed, hte]
  have mm : ∀ p' ∈ (move_pipes t).pipes,
      ∃ p ∈ u.pipes, p' = { p with x := p.x + PIPE_SPEED * dt } := by
    intro p' hp'
    obtain ⟨p, hp, hpe⟩ := move_pipes_mem t p' hp'
    rw [htp] at hp
    exact ⟨p, hp, hpe⟩
  by_cases hfire : PIPE_SPAWN_INTERVAL ≤ (move_pipes t).spawn_elapsed + dt
  · -- the timer expires on this tick
    have hsp : mid_state u r
        = { move_pipes t with
            spawn_elapsed := (move_pipes t).spawn_elapsed + dt - PIPE_SPAWN_INTERVAL,
            pipes := (move_pipes t).pipes ++ spawn_pair r } := by
      unfold mid_state spawn_pipes
      rw [ht, if_pos hfire]
    have hm95 : m = 95 := by
      rw [me, he] at hfire
      have h96 : (96 : ℚ) ≤ (m : ℚ) + 1 := by
        unfold PIPE_SPAWN_INTERVAL dt at hfire
        linarith
      have h95 : (95 : ℕ) ≤ m := by
        exact_mod_cast (by linarith : (95 : ℚ) ≤ (m : ℚ))
      omega
    have hez : (mid_state u r).spawn_elapsed = 0 := by
      rw [hsp]
      show (move_pipes t).spawn_elapsed + dt - PIPE_SPAWN_INTERVAL = 0
      rw [me, he, hm95]
      unfold dt PIPE_SPAWN_INTERVAL
      norm_num
    have hmem : ∀ p' ∈ (mid_state u r).pipes,
        (∃ p ∈ u.pipes, p' = { p with x := p.x + PIPE_SPEED * dt }) ∨
          p' ∈ spawn_pair r := by
      intro p' hp'
      rw [hsp] at hp'
      rcases List.mem_append.mp hp' with h1 | h1
      · exact Or.inl (mm p' h1)
      · exact Or.inr h1
    refine ⟨⟨0, by norm_num, by rw [hez]; norm_num⟩, ?_, ?_, ?_⟩
    · intro p' hp'
      rw [hez]
      rcases hmem p' hp' with ⟨p, hp, hpe⟩ | h1
      · obtain ⟨k, hk⟩ := ha p hp
        refine ⟨k + 1, ?_⟩
        rw [hpe]
        show p.x + PIPE_SPEED * dt = PIPE_SPAWN_X - 240 * ((k + 1 : ℕ) : ℚ) - 150 * 0
        rw [hk, he, hm95]
        push_cast
        unfold PIPE_SPEED dt
        ring
      · refine ⟨0, ?_⟩
        rw [(spawn_pair_fields r p' h1).1]
        norm_num
    · intro p' hp' htop hsc
      rcases hmem p' hp' with ⟨p, hp, hpe⟩ | h1
      · rw [hpe] at htop hsc ⊢
        have h2 := hf p hp htop hsc
        show bird_left - 150 * dt ≤ p.x + PIPE_SPEED * dt + p.width * (1/2)
        unfold PIPE_SPEED dt
        unfold dt at h2
        linarith
      · obtain ⟨hx, hwid, _⟩ := spawn_pair_fields r p' h1
        rw [hx, hwid]
        unfold bird_left BIRD_START_X BIRD_SIZE_X PIPE_SPAWN_X WINDOW_W PIPE_WIDTH dt
        norm_num
    · intro p' hp'
      rcases hmem p' hp' with ⟨p, hp, hpe⟩ | h1
      · rw [hpe]
        exact hw p hp
      · exact (spawn_pair_fields r p' h1).2.1
  · -- no expiry: the timer just advances by dt
    have hsp : mid_state u r
        = { move_pipes t with
            spawn_elapsed := (move_pipes t).spawn_elapsed + dt } := by
      unfold mid_state spawn_pipes
      rw [ht, if_neg hfire]
    have hee : (mid_state u r).spawn_elapsed = u.spawn_elapsed + dt := by
      rw [hsp]
      show (move_pipes t).spawn_elapsed + dt = u.spawn_elapsed + dt
      rw [me]
    have hm1 : m + 1 < 96 := by
      by_contra hcon
      apply hfire
      rw [me, he]
      have hmm : m = 95 := by omega
      rw [hmm]
      unfold PIPE_SPAWN_INTERVAL dt
      norm_num
    have hmem : ∀ p' ∈ (mid_state u r).pipes,
        ∃ p ∈ u.pipes, p' = { p with x := p.x + PIPE_SPEED * dt } := by
      intro p' hp'
      rw [hsp] at hp'
      exact mm p' hp'
    refine ⟨⟨m + 1, hm1, ?_⟩, ?_, ?_, ?_⟩
    · rw [hee, he]
      push_cast
      unfold dt
      ring
    · intro p' hp'
      obtain ⟨p, hp, hpe⟩ := hmem p' hp'
      obtain ⟨k, hk⟩ := ha p hp
      refine ⟨k, ?_⟩
      rw [hee, hpe]
      show p.x + PIPE_SPEED * dt = PIPE_SPAWN_X - 240 * (k : ℚ)
          - 150 * (u.spawn_elapsed + dt)
      rw [hk]
      unfold PIPE_SPEED dt
      ring
    · intro p' hp' htop hsc
      obtain ⟨p, hp, hpe⟩ := hmem p' hp'
      rw [hpe] at htop hsc ⊢
      have h2 := hf p hp htop hsc
      show bird_left - 150 * dt ≤ p.x + PIPE_SPEED * dt + p.width * (1/2)
      unfold PIPE_SPEED dt
      linarith
    · intro p' hp'
      obtain ⟨p, hp, hpe⟩ := hmem p' hp'
      rw [hpe]
      exact hw p hp

/-- Alignment gives pairwise x distances that are multiples of 240. -/
lemma aligned_diff (ps : List Pipe) (e : ℚ) (h : aligned_pipes ps e) :
    ∀ p ∈ ps, ∀ q ∈ ps, ∃ z : ℤ, p.x - q.x = 240 * (z : ℚ) := by
  intro p hp q hq
  obtain ⟨kp, hkp⟩ := h p hp
  obtain ⟨kq, hkq⟩ := h q hq
  refine ⟨(kq : ℤ) - (kp : ℤ), ?_⟩
  rw [hkp, hkq]
  push_cast
  ring

/-- Under the mid-tick invariants, a tick on which some pipe overlaps
the bird has no crossing pipe at all: the geometry (spawn spacing of
240 px, crossers at most one tick past the edge) makes a crosser and
an overlapper coexist only at x distances in `[-233/2, 0)`, which
contains no multiple of 240. -/
lemma no_crosser_of_overlap (b : Bird) (ps : List Pipe) (e : ℚ)
    (ha : aligned_pipes ps e) (hf : midfresh_pipes ps) (hw : wide_pipes ps)
    (q : Pipe) (hq : q ∈ ps) (hover : overlapb b q = true) :
    ∀ p ∈ ps, crosses p = false := by
  intro p hp
  cases hcr : crosses p with
  | false => rfl
  | true =>
      exfalso
      unfold crosses at hcr
      simp only [Bool.and_eq_true, Bool.not_eq_true', decide_eq_true_eq] at hcr
      obtain ⟨⟨htop, hsc⟩, hlt⟩ := hcr
      have hwp := hw p hp
      have hfp := hf p hp htop hsc
      unfold overlapb at hover
      simp only [Bool.and_eq_true, decide_eq_true_eq] at hover
      obtain ⟨hqx, _⟩ := hover
      rw [rabs_eq_abs, hw q hq] at hqx
      obtain ⟨hq1, hq2⟩ := abs_le.mp hqx
      obtain ⟨z, hz⟩ := aligned_diff ps e ha p hp q hq
      rw [hwp] at hlt hfp
      simp only [bird_left, BIRD_START_X, BIRD_SIZE_X, PIPE_WIDTH, dt] at hlt hfp hq1 hq2
      have hzlt : (z : ℚ) < 0 := by linarith
      have hz1 : z ≤ -1 := by
        have : z < 0 := by exact_mod_cast hzlt
        omega
      have hz1q : (z : ℚ) ≤ -1 := by exact_mod_cast hz1
      linarith

lemma check_pipes_score_of_no_crosser (b : Bird) (ps : List Pipe)
    (h : ∀ p ∈ ps, crosses p = false) :
    ∀ sc : ℕ, (check_pipes b ps sc).2.1 = sc := by
  induction ps with
  | nil => intro sc; rfl
  | cons q rest ih =>
      intro sc
      unfold check_pipes
      cases hov : overlapb b q with
      | true => simp
      | false =>
          simp only [Bool.false_eq_true, if_false]
          rw [h q (List.mem_cons_self _ _)]
          simp only [Bool.false_eq_true, if_false]
          exact ih (fun p hp => h p (List.mem_cons_of_mem _ hp)) sc

lemma check_cs_boundary (s : Sim) (hb : boundary_breach s.bird = true) :
    check_collisions_and_scoring s = { s with mode := GameState.GameOver } := by
  unfold check_collisions_and_scoring
  rw [if_pos hb]

lemma check_cs_over_mode (s : Sim) (p : Pipe) (hp : p ∈ s.pipes)
    (ho : overlapb s.bird p = true) :
    (check_collisions_and_scoring s).mode = GameState.GameOver := by
  unfold check_collisions_and_scoring
  by_cases hb : boundary_breach s.bird = true
  · rw [if_pos hb]
  · rw [if_neg hb]
    simp only
    rw [check_pipes_over s.bird s.pipes p hp ho]
    rfl

lemma check_cs_score_of_no_crosser (s : Sim)
    (h : ∀ p ∈ s.pipes, crosses p = false) :
    (check_collisions_and_scoring s).score = s.score := by
  unfold check_collisions_and_scoring
  split
  · rfl
  · exact check_pipes_score_of_no_crosser s.bird s.pipes h s.score

lemma check_cs_eq_of_clear (s : Sim) (hb : boundary_breach s.bird = false)
    (ho : ∀ p ∈ s.pipes, overlapb s.bird p = false) :
    check_collisions_and_scoring s
      = { s with
          pipes := s.pipes.map
            (fun p => if crosses p then { p with scored := true } else p),
          score := s.score + s.pipes.countP crosses } := by
  have hch := check_pipes_no_overlap s.bird s.pipes ho s.score
  unfold check_collisions_and_scoring
  rw [if_neg (by rw [hb]; exact Bool.false_ne_true), hch]
  rfl

lemma start_game_inv (s : Sim) : SimInv (start_game s) := by
  intro _
  refine ⟨⟨0, by norm_num, by norm_num [start_game]⟩, ?_, ?_, ?_⟩ <;>
    · intro p hp
      simp [start_game] at hp

lemma init_inv : SimInv init_state := by
  intro hm
  exact absurd hm (by simp [init_state])

/-- The invariant is preserved by every step of the game. -/
lemma step_inv (s : Sim) (i : Input) (r : ℚ) (h : SimInv s) :
    SimInv (step s i r) := by
  unfold step
  by_cases hp : s.mode = GameState.Playing
  · rw [if_pos hp]
    obtain ⟨hg, ha, hf, hw⟩ := h hp
    set u := with_flap s i with hu
    have hinv := mid_invariants u r
      (by rw [hu, with_flap_elapsed]; exact hg)
      (by rw [hu, with_flap_pipes, with_flap_elapsed]; exact ha)
      (by rw [hu, with_flap_pipes]; exact hf)
      (by rw [hu, with_flap_pipes]; exact hw)
    obtain ⟨mg, ma, mf, mw⟩ := hinv
    intro hmode
    by_cases hb : boundary_breach (mid_state u r).bird = true
    · exfalso
      have hgo : (play_tick u r).mode = GameState.GameOver := by
        unfold play_tick
        rw [check_cs_boundary _ hb]
      exact absurd (hgo.symm.trans hmode) (by simp)
    · by_cases hov : ∃ p ∈ (mid_state u r).pipes,
          overlapb (mid_state u r).bird p = true
      · exfalso
        obtain ⟨p, hpm, hpo⟩ := hov
        have hgo : (play_tick u r).mode = GameState.GameOver := by
          unfold play_tick
          exact check_cs_over_mode _ p hpm hpo
        exact absurd (hgo.symm.trans hmode) (by simp)
      · have ho : ∀ p ∈ (mid_state u r).pipes,
            overlapb (mid_state u r).bird p = false := by
          intro p hpm
          cases hx : overlapb (mid_state u r).bird p with
          | false => rfl
          | true => exact absurd ⟨p, hpm, hx⟩ hov
        have hbf : boundary_breach (mid_state u r).bird = false := by
          cases hx : boundary_breach (mid_state u r).bird with
          | false => rfl
          | true => exact absurd hx hb
        have heq : play_tick u r
            = { mid_state u r with
                pipes := (mid_state u r).pipes.map
                  (fun p => if crosses p then { p with scored := true } else p),
                score := (mid_state u r).score
                  + ((mid_state u r).pipes).countP crosses } := by
          unfold play_tick
          exact check_cs_eq_of_clear _ hbf ho
        rw [heq]
        refine ⟨mg, ?_, ?_, ?_⟩
        · intro p' hp'
          simp only [List.mem_map] at hp'
          obtain ⟨p, hpm, hpe⟩ := hp'
          have hx : p'.x = p.x := by
            rw [← hpe]
            split <;> rfl
          obtain ⟨k, hk⟩ := ma p hpm
          exact ⟨k, by rw [hx]; exact hk⟩
        · intro p' hp' htop hsc
          simp only [List.mem_map] at hp'
          obtain ⟨p, hpm, hpe⟩ := hp'
          cases hc : crosses p with
          | true =>
              exfalso
              rw [hc] at hpe
              simp only [if_true] at hpe
              rw [← hpe] at hsc
              exact absurd hsc (by simp)
          | false =>
              rw [hc] at hpe
              simp only [Bool.false_eq_true, if_false] at hpe
              rw [← hpe] at htop hsc ⊢
              unfold crosses at hc
              simp only [htop, hsc, Bool.not_false, Bool.true_and,
                decide_eq_false_iff_not, not_lt] at hc
              exact hc
        · intro p' hp'
          simp only [List.mem_map] at hp'
          obtain ⟨p, hpm, hpe⟩ := hp'
          have hwd : p'.width = p.width := by
            rw [← hpe]
            split <;> rfl
          rw [hwd]
          exact mw p hpm
  · rw [if_neg hp]
    by_cases hi : i.start = true
    · rw [if_pos hi]
      exact start_game_inv s
    · rw [if_neg hi]
      exact h

/-- The states the game can actually be in: the startup state, closed
under steps. -/
inductive Reachable : Sim → Prop
  | init : Reachable init_state
  | next : ∀ (s : Sim) (i : Input) (r : ℚ), Reachable s → Reachable (step s i r)

lemma reachable_inv {s : Sim} (h : Reachable s) : SimInv s := by
  induction h with
  | init => exact init_inv
  | next s i r _ ih => exact step_inv s i r ih

lemma reachable_run (s : Sim) (h : Reachable s) (ins : ℕ → Input) (rs : ℕ → ℚ) :
    ∀ n, Reachable (run s ins rs n) := by
  intro n
  induction n with
  | zero => exact h
  | succ k ih => exact Reachable.next _ _ _ ih

lemma step_frozen (s : Sim) (i : Input) (r : ℚ)
    (hm : s.mode = GameState.GameOver) (hi : i.start = false) :
    step s i r = s := by
  unfold step
  rw [if_neg (by rw [hm]; simp), if_neg (by rw [hi]; simp)]

lemma run_frozen (s : Sim) (hm : s.mode = GameState.GameOver)
    (ins : ℕ → Input) (rs : ℕ → ℚ) (hns : ∀ k, (ins k).start = false) :
    ∀ n, run s ins rs n = s := by
  intro n
  induction n with
  | zero => rfl
  | succ k ih =>
      show step (run s ins rs k) (ins k) (rs k) = s
      rw [ih]
      exact step_frozen s (ins k) (rs k) hm (hns k)

/-- C1: on a reachable playing state, a tick whose collision pass sees
a boundary breach or an overlap with a live pipe switches the mode to
`GameOver` on that very tick, leaves the score unchanged on that tick,
and (since `GameOver` freezes the world until a restart re-enters
`Playing`) the score also never changes on any later tick while no
restart intent arrives. -/
theorem collision_authority (s : Sim) (i : Input) (r : ℚ)
    (hre : Reachable s) (hm : s.mode = GameState.Playing)
    (hc : boundary_breach (mid_state (with_flap s i) r).bird = true ∨
          ∃ p ∈ (mid_state (with_flap s i) r).pipes,
            overlapb (mid_state (with_flap s i) r).bird p = true) :
    (step s i r).mode = GameState.GameOver ∧
    (step s i r).score = s.score ∧
    (∀ ins : ℕ → Input, ∀ rs : ℕ → ℚ, (∀ k, (ins k).start = false) →
      ∀ n, (run (step s i r) ins rs n).score = s.score) := by
  set u := with_flap s i with hu
  have hstep : step s i r = check_collisions_and_scoring (mid_state u r) := by
    unfold step
    rw [if_pos hm]
    rfl
  have hmsc : (mid_state u r).score = s.score := by
    rw [mid_state_score, hu, with_flap_score]
  have hmain : (step s i r).mode = GameState.GameOver ∧
      (step s i r).score = s.score := by
    by_cases hb : boundary_breach (mid_state u r).bird = true
    · rw [hstep, check_cs_boundary _ hb]
      exact ⟨rfl, hmsc⟩
    · have hov : ∃ p ∈ (mid_state u r).pipes,
          overlapb (mid_state u r).bird p = true := by
        rcases hc with hcb | hco
        · exact absurd hcb hb
        · exact hco
      obtain ⟨q, hqm, hqo⟩ := hov
      obtain ⟨hg, ha, hf, hw⟩ := reachable_inv hre hm
      obtain ⟨mg, ma, mf, mw⟩ := mid_invariants u r
        (by rw [hu, with_flap_elapsed]; exact hg)
        (by rw [hu, with_flap_pipes, with_flap_elapsed]; exact ha)
        (by rw [hu, with_flap_pipes]; exact hf)
        (by rw [hu, with_flap_pipes]; exact hw)
      have hnc := no_crosser_of_overlap (mid_state u r).bird (mid_state u r).pipes
        (mid_state u r).spawn_elapsed ma mf mw q hqm hqo
      constructor
      · rw [hstep]
        exact check_cs_over_mode _ q hqm hqo
      · rw [hstep, check_cs_score_of_no_crosser _ hnc]
        exact hmsc
  refine ⟨hmain.1, hmain.2, ?_⟩
  intro ins rs hns n
  rw [run_frozen (step s i r) hmain.1 ins rs hns n]
  exact hmain.2

/-- The input stream of the collision witness: start on the first
step, then nothing. -/
def c1_ins : ℕ → Input :=
  fun n => if n = 0 then { flap := false, start := true }
           else { flap := false, start := false }

/-- The draw stream of the collision witness. -/
def c1_rs : ℕ → ℚ := fun _ => 0

/-- The neutral per-step input of the collision witness. -/
def c1_i : Input := { flap := false, start := false }

/-- The playing state 44 ticks after the start: the bird has free-
fallen to `y = -973/4` and breaches the floor on the next tick. -/
def c1_state : Sim := run init_state c1_ins c1_rs 45

set_option maxRecDepth 100000 in
/-- Witness for C1: a reachable free-fall run breaches the floor on
tick 45; that tick flips the mode to `GameOver` and the score stays 0
forever after (no restart). -/
theorem collision_authority_witness :
    c1_state.mode = GameState.Playing ∧
    (boundary_breach (mid_state (with_flap c1_state c1_i) 0).bird = true ∨
     ∃ p ∈ (mid_state (with_flap c1_state c1_i) 0).pipes,
       overlapb (mid_state (with_flap c1_state c1_i) 0).bird p = true) ∧
    ((step c1_state c1_i 0).mode = GameState.GameOver ∧
     (step c1_state c1_i 0).score = c1_state.score ∧
     (∀ ins : ℕ → Input, ∀ rs : ℕ → ℚ, (∀ k, (ins k).start = false) →
        ∀ n, (run (step c1_state c1_i 0) ins rs n).score = c1_state.score)) :=
  ⟨by with_unfolding_all decide,
   Or.inl (by with_unfolding_all decide),
   collision_authority c1_state c1_i 0
     (reachable_run init_state Reachable.init c1_ins c1_rs 45)
     (by with_unfolding_all decide)
     (Or.inl (by with_unfolding_all decide))⟩

end FloopyBirb
